import Mathlib

/-!
Verification development for the `colossal_cifar_demo.ipynb` notebook
(repository weisk/ColossalAI, examples/colossal_cifar_demo.ipynb).

The notebook is a linear Python script: a shell cell, import statements,
configuration assignments and calls into the `colossalai` / `torch`
libraries.  We embed its code cells as a small Python-statement AST
(faithful, statement by statement, to the notebook source), together with
value-level records of the configuration objects it builds, and prove the
specification claims about that embedding.
-/

/-! ## Python literal values

Decimal literals such as `0.4914` are embedded symbolically as
`Lit.dec 4914 4` (digits and decimal-shift), exactly as they appear in the
source text; no floating-point arithmetic is performed on them. -/

inductive Lit where
  | int (n : Int)
  | str (s : String)
  | dec (digits : Int) (shift : Nat)
  | bool (b : Bool)
  | pyNone
deriving DecidableEq, Repr

/-! ## Python expressions

`Expr.call f pos kw` is a Python call `f(pos..., key=value, ...)`.
A Python `dict(k=v, ...)` display is a call to the builtin name `dict`.
`Expr.mul` covers the notebook's only arithmetic, `16 * 5 * 5`. -/

mutual
inductive Expr where
  | lit (l : Lit)
  | name (x : String)
  | attr (e : Expr) (field : String)
  | call (f : Expr) (pos : ExprList) (kw : Kwargs)
  | mul (a b : Expr)
  | listE (es : ExprList)
inductive ExprList where
  | nil
  | cons (e : Expr) (es : ExprList)
inductive Kwargs where
  | nil
  | cons (key : String) (value : Expr) (rest : Kwargs)
end

/-! ## Python statements

`Stmt.classDef` carries the method table of the class body.  The branching,
looping and exception-handling statement forms of Python are present in the
AST so that their absence from the notebook is a checkable fact, not a
modelling artifact. -/

mutual
inductive Stmt where
  | assign (target : String) (e : Expr)
  | attrAssign (obj : String) (field : String) (e : Expr)
  | exprStmt (e : Expr)
  | importMod (modName : String) (asName : String)
  | importFrom (modName : String) (names : List String)
  | shell (cmd : String)
  | classDef (cname : String) (base : Expr) (methods : Methods)
  | ifStmt (cond : Expr) (thn els : StmtList)
  | whileStmt (cond : Expr) (body : StmtList)
  | forStmt (v : String) (iter : Expr) (body : StmtList)
  | tryStmt (body : StmtList) (handler : StmtList)
  | ret (e : Expr)
inductive StmtList where
  | nil
  | cons (s : Stmt) (ss : StmtList)
inductive Methods where
  | nil
  | cons (mname : String) (params : List String) (body : StmtList) (rest : Methods)
end

/-! ## Notation-free builders -/

def strE (s : String) : Expr := Expr.lit (Lit.str s)

def intE (n : Int) : Expr := Expr.lit (Lit.int n)

def decE (digits : Int) (shift : Nat) : Expr := Expr.lit (Lit.dec digits shift)

def boolE (b : Bool) : Expr := Expr.lit (Lit.bool b)

def noneE : Expr := Expr.lit Lit.pyNone

def el : List Expr → ExprList
  | [] => ExprList.nil
  | e :: es => ExprList.cons e (el es)

def kws : List (String × Expr) → Kwargs
  | [] => Kwargs.nil
  | (k, v) :: rest => Kwargs.cons k v (kws rest)

/-- `dotted root [a, b]` is the Python attribute chain `root.a.b`. -/
def dotted (root : String) (fields : List String) : Expr :=
  fields.foldl Expr.attr (Expr.name root)

/-- A Python `dict(k1=v1, ...)` display. -/
def dictE (entries : List (String × Expr)) : Expr :=
  Expr.call (Expr.name "dict") ExprList.nil (kws entries)

def sl : List Stmt → StmtList
  | [] => StmtList.nil
  | s :: ss => StmtList.cons s (sl ss)

def methods : List (String × List String × List Stmt) → Methods
  | [] => Methods.nil
  | (m, ps, body) :: rest => Methods.cons m ps (sl body) (methods rest)

/-! ## The notebook, cell by cell

Each definition below embeds one top-level Python statement of the
notebook's code cells, in source order. -/

/-- Cell 1: `!pip install ColossalAI deepspeed`. -/
def stmtPip : Stmt := Stmt.shell "pip install ColossalAI deepspeed"

/-- Cell 2: `import colossalai`. -/
def stmtImportColossalai : Stmt := Stmt.importMod "colossalai" "colossalai"

/-- Cell 2: `from colossalai.engine import Engine, NoPipelineSchedule`. -/
def stmtImportEngine : Stmt :=
  Stmt.importFrom "colossalai.engine" ["Engine", "NoPipelineSchedule"]

/-- Cell 2: `from colossalai.trainer import Trainer`. -/
def stmtImportTrainer : Stmt := Stmt.importFrom "colossalai.trainer" ["Trainer"]

/-- Cell 2: `from colossalai.context import Config`. -/
def stmtImportConfig : Stmt := Stmt.importFrom "colossalai.context" ["Config"]

/-- Cell 2: `import torch`. -/
def stmtImportTorch : Stmt := Stmt.importMod "torch" "torch"

/-- Cell 3: `parallel_cfg = Config(dict(parallel=dict(data=dict(size=1),
pipeline=dict(size=1), tensor=dict(size=1, mode=None))))`. -/
def stmtParallelCfg : Stmt :=
  Stmt.assign "parallel_cfg"
    (Expr.call (Expr.name "Config")
      (el [dictE [("parallel", dictE
        [("data", dictE [("size", intE 1)]),
         ("pipeline", dictE [("size", intE 1)]),
         ("tensor", dictE [("size", intE 1), ("mode", noneE)])])]])
      Kwargs.nil)

/-- Cell 3: `colossalai.init_dist(config=parallel_cfg, local_rank=0,
world_size=1, host='127.0.0.1', port=8888, backend='nccl')`. -/
def stmtInitDist : Stmt :=
  Stmt.exprStmt
    (Expr.call (dotted "colossalai" ["init_dist"]) ExprList.nil
      (kws [("config", Expr.name "parallel_cfg"),
            ("local_rank", intE 0),
            ("world_size", intE 1),
            ("host", strE "127.0.0.1"),
            ("port", intE 8888),
            ("backend", strE "nccl")]))

/-- Cell 4: `transform_cfg = [dict(type='ToTensor'), dict(type='Normalize',
mean=[0.4914, 0.4822, 0.4465], std=[0.2023, 0.1994, 0.2010])]`. -/
def stmtTransformCfg : Stmt :=
  Stmt.assign "transform_cfg"
    (Expr.listE (el
      [dictE [("type", strE "ToTensor")],
       dictE [("type", strE "Normalize"),
              ("mean", Expr.listE (el [decE 4914 4, decE 4822 4, decE 4465 4])),
              ("std", Expr.listE (el [decE 2023 4, decE 1994 4, decE 2010 4]))]]))

/-- Cell 4: `batch_size = 128`. -/
def stmtBatchSize : Stmt := Stmt.assign "batch_size" (intE 128)

/-- Cell 4: `trainset = colossalai.nn.data.CIFAR10Dataset(transform_cfg,
root='./data', train=True)`. -/
def stmtTrainset : Stmt :=
  Stmt.assign "trainset"
    (Expr.call (dotted "colossalai" ["nn", "data", "CIFAR10Dataset"])
      (el [Expr.name "transform_cfg"])
      (kws [("root", strE "./data"), ("train", boolE true)]))

/-- Cell 4: `trainloader = torch.utils.data.DataLoader(trainset,
batch_size=batch_size, shuffle=True, num_workers=2)`. -/
def stmtTrainloader : Stmt :=
  Stmt.assign "trainloader"
    (Expr.call (dotted "torch" ["utils", "data", "DataLoader"])
      (el [Expr.name "trainset"])
      (kws [("batch_size", Expr.name "batch_size"),
            ("shuffle", boolE true),
            ("num_workers", intE 2)]))

/-- Cell 4: `testset = colossalai.nn.data.CIFAR10Dataset(transform_cfg,
root='./data', train=False)`. -/
def stmtTestset : Stmt :=
  Stmt.assign "testset"
    (Expr.call (dotted "colossalai" ["nn", "data", "CIFAR10Dataset"])
      (el [Expr.name "transform_cfg"])
      (kws [("root", strE "./data"), ("train", boolE false)]))

/-- Cell 4: `testloader = torch.utils.data.DataLoader(testset,
batch_size=batch_size, shuffle=False, num_workers=2)`. -/
def stmtTestloader : Stmt :=
  Stmt.assign "testloader"
    (Expr.call (dotted "torch" ["utils", "data", "DataLoader"])
      (el [Expr.name "testset"])
      (kws [("batch_size", Expr.name "batch_size"),
            ("shuffle", boolE false),
            ("num_workers", intE 2)]))

/-- Cell 5: `import torch.nn as nn`. -/
def stmtImportNn : Stmt := Stmt.importMod "torch.nn" "nn"

/-- Cell 5: `import torch.nn.functional as F`. -/
def stmtImportF : Stmt := Stmt.importMod "torch.nn.functional" "F"

/-- Cell 5: the body of `Net.__init__` — `super().__init__()` followed by the
six layer assignments, `fc1` taking `16 * 5 * 5` input features. -/
def netInitBody : List Stmt :=
  [Stmt.exprStmt (Expr.call
      (Expr.attr (Expr.call (Expr.name "super") ExprList.nil Kwargs.nil) "__init__")
      ExprList.nil Kwargs.nil),
   Stmt.attrAssign "self" "conv1"
     (Expr.call (dotted "nn" ["Conv2d"]) (el [intE 3, intE 6, intE 5]) Kwargs.nil),
   Stmt.attrAssign "self" "pool"
     (Expr.call (dotted "nn" ["MaxPool2d"]) (el [intE 2, intE 2]) Kwargs.nil),
   Stmt.attrAssign "self" "conv2"
     (Expr.call (dotted "nn" ["Conv2d"]) (el [intE 6, intE 16, intE 5]) Kwargs.nil),
   Stmt.attrAssign "self" "fc1"
     (Expr.call (dotted "nn" ["Linear"])
       (el [Expr.mul (Expr.mul (intE 16) (intE 5)) (intE 5), intE 120]) Kwargs.nil),
   Stmt.attrAssign "self" "fc2"
     (Expr.call (dotted "nn" ["Linear"]) (el [intE 120, intE 84]) Kwargs.nil),
   Stmt.attrAssign "self" "fc3"
     (Expr.call (dotted "nn" ["Linear"]) (el [intE 84, intE 10]) Kwargs.nil)]

/-- Cell 5: the body of `Net.forward` — pooled ReLU convolutions, flatten,
three fully-connected layers, `return x`. -/
def netForwardBody : List Stmt :=
  [Stmt.assign "x"
     (Expr.call (dotted "self" ["pool"])
       (el [Expr.call (dotted "F" ["relu"])
         (el [Expr.call (dotted "self" ["conv1"]) (el [Expr.name "x"]) Kwargs.nil])
         Kwargs.nil])
       Kwargs.nil),
   Stmt.assign "x"
     (Expr.call (dotted "self" ["pool"])
       (el [Expr.call (dotted "F" ["relu"])
         (el [Expr.call (dotted "self" ["conv2"]) (el [Expr.name "x"]) Kwargs.nil])
         Kwargs.nil])
       Kwargs.nil),
   Stmt.assign "x"
     (Expr.call (dotted "torch" ["flatten"]) (el [Expr.name "x", intE 1]) Kwargs.nil),
   Stmt.assign "x"
     (Expr.call (dotted "F" ["relu"])
       (el [Expr.call (dotted "self" ["fc1"]) (el [Expr.name "x"]) Kwargs.nil])
       Kwargs.nil),
   Stmt.assign "x"
     (Expr.call (dotted "F" ["relu"])
       (el [Expr.call (dotted "self" ["fc2"]) (el [Expr.name "x"]) Kwargs.nil])
       Kwargs.nil),
   Stmt.assign "x"
     (Expr.call (dotted "self" ["fc3"]) (el [Expr.name "x"]) Kwargs.nil),
   Stmt.ret (Expr.name "x")]

/-- Cell 5: `class Net(nn.Module)` with methods `__init__` and `forward`. -/
def stmtNetClass : Stmt :=
  Stmt.classDef "Net" (dotted "nn" ["Module"])
    (methods [("__init__", ["self"], netInitBody),
              ("forward", ["self", "x"], netForwardBody)])

/-- Cell 5: `model = Net().cuda()`. -/
def stmtModel : Stmt :=
  Stmt.assign "model"
    (Expr.call
      (Expr.attr (Expr.call (Expr.name "Net") ExprList.nil Kwargs.nil) "cuda")
      ExprList.nil Kwargs.nil)

/-- Cell 6: `import torch.optim as optim`. -/
def stmtImportOptim : Stmt := Stmt.importMod "torch.optim" "optim"

/-- Cell 6: `criterion = nn.CrossEntropyLoss()`. -/
def stmtCriterion : Stmt :=
  Stmt.assign "criterion"
    (Expr.call (dotted "nn" ["CrossEntropyLoss"]) ExprList.nil Kwargs.nil)

/-- Cell 6: `optimizer = optim.SGD(model.parameters(), lr=0.001, momentum=0.9)`. -/
def stmtOptimizer : Stmt :=
  Stmt.assign "optimizer"
    (Expr.call (dotted "optim" ["SGD"])
      (el [Expr.call (dotted "model" ["parameters"]) ExprList.nil Kwargs.nil])
      (kws [("lr", decE 1 3), ("momentum", decE 9 1)]))

/-- Cell 6: `schedule = NoPipelineSchedule()`. -/
def stmtSchedule : Stmt :=
  Stmt.assign "schedule"
    (Expr.call (Expr.name "NoPipelineSchedule") ExprList.nil Kwargs.nil)

/-- Cell 6: `engine = Engine(model=model, criterion=criterion,
optimizer=optimizer, lr_scheduler=None, schedule=schedule)`. -/
def stmtEngine : Stmt :=
  Stmt.assign "engine"
    (Expr.call (Expr.name "Engine") ExprList.nil
      (kws [("model", Expr.name "model"),
            ("criterion", Expr.name "criterion"),
            ("optimizer", Expr.name "optimizer"),
            ("lr_scheduler", noneE),
            ("schedule", Expr.name "schedule")]))

/-- Cell 6: `trainer = Trainer(engine=engine, hooks_cfg=[dict(type='LossHook'),
dict(type='LogMetricByEpochHook'), dict(type='AccuracyHook')], verbose=True)`. -/
def stmtTrainer : Stmt :=
  Stmt.assign "trainer"
    (Expr.call (Expr.name "Trainer") ExprList.nil
      (kws [("engine", Expr.name "engine"),
            ("hooks_cfg", Expr.listE (el
              [dictE [("type", strE "LossHook")],
               dictE [("type", strE "LogMetricByEpochHook")],
               dictE [("type", strE "AccuracyHook")]])),
            ("verbose", boolE true)]))

/-- Cell 7: `num_epochs = 10`. -/
def stmtNumEpochs : Stmt := Stmt.assign "num_epochs" (intE 10)

/-- Cell 7: `test_interval = 1`. -/
def stmtTestInterval : Stmt := Stmt.assign "test_interval" (intE 1)

/-- Cell 7: `trainer.fit(train_dataloader=trainloader,
test_dataloader=testloader, max_epochs=num_epochs, display_progress=True,
test_interval=test_interval)`. -/
def stmtFit : Stmt :=
  Stmt.exprStmt
    (Expr.call (dotted "trainer" ["fit"]) ExprList.nil
      (kws [("train_dataloader", Expr.name "trainloader"),
            ("test_dataloader", Expr.name "testloader"),
            ("max_epochs", Expr.name "num_epochs"),
            ("display_progress", boolE true),
            ("test_interval", Expr.name "test_interval")]))

/-- The whole notebook: its top-level statements in source order. -/
def notebook : List Stmt :=
  [stmtPip, stmtImportColossalai, stmtImportEngine, stmtImportTrainer,
   stmtImportConfig, stmtImportTorch, stmtParallelCfg, stmtInitDist,
   stmtTransformCfg, stmtBatchSize, stmtTrainset, stmtTrainloader,
   stmtTestset, stmtTestloader, stmtImportNn, stmtImportF, stmtNetClass,
   stmtModel, stmtImportOptim, stmtCriterion, stmtOptimizer, stmtSchedule,
   stmtEngine, stmtTrainer, stmtNumEpochs, stmtTestInterval, stmtFit]

/-! ## Syntactic analyses of the embedded notebook -/

mutual
/-- Structural equality of expressions. -/
def Expr.beq : Expr → Expr → Bool
  | Expr.lit a, Expr.lit b => a == b
  | Expr.name a, Expr.name b => a == b
  | Expr.attr e1 f1, Expr.attr e2 f2 => Expr.beq e1 e2 && f1 == f2
  | Expr.call f1 p1 k1, Expr.call f2 p2 k2 =>
      Expr.beq f1 f2 && ExprList.beq p1 p2 && Kwargs.beq k1 k2
  | Expr.mul a1 b1, Expr.mul a2 b2 => Expr.beq a1 a2 && Expr.beq b1 b2
  | Expr.listE a, Expr.listE b => ExprList.beq a b
  | _, _ => false
def ExprList.beq : ExprList → ExprList → Bool
  | ExprList.nil, ExprList.nil => true
  | ExprList.cons e1 es1, ExprList.cons e2 es2 => Expr.beq e1 e2 && ExprList.beq es1 es2
  | _, _ => false
def Kwargs.beq : Kwargs → Kwargs → Bool
  | Kwargs.nil, Kwargs.nil => true
  | Kwargs.cons k1 v1 r1, Kwargs.cons k2 v2 r2 =>
      k1 == k2 && Expr.beq v1 v2 && Kwargs.beq r1 r2
  | _, _ => false
end

mutual
/-- Free names occurring in an expression (roots of attribute chains,
callee and argument names). -/
def Expr.uses : Expr → List String
  | Expr.lit _ => []
  | Expr.name x => [x]
  | Expr.attr e _ => e.uses
  | Expr.call f p k => f.uses ++ p.uses ++ k.uses
  | Expr.mul a b => a.uses ++ b.uses
  | Expr.listE es => es.uses
def ExprList.uses : ExprList → List String
  | ExprList.nil => []
  | ExprList.cons e es => e.uses ++ es.uses
def Kwargs.uses : Kwargs → List String
  | Kwargs.nil => []
  | Kwargs.cons _ v r => v.uses ++ r.uses
end

mutual
/-- Names a statement makes available to later statements. -/
def Stmt.defines : Stmt → List String
  | Stmt.assign x _ => [x]
  | Stmt.importMod _ a => [a]
  | Stmt.importFrom _ ns => ns
  | Stmt.classDef c _ _ => [c]
  | _ => []
def StmtList.defines : StmtList → List String
  | StmtList.nil => []
  | StmtList.cons s ss => s.defines ++ ss.defines
end

mutual
/-- Free names a statement reads.  For a class definition these are the
names its base expression and its method bodies reach outside the method
scope: method parameters, method-local assignments and the builtin
`super` are excluded. -/
def Stmt.uses : Stmt → List String
  | Stmt.assign _ e => e.uses
  | Stmt.attrAssign o _ e => o :: e.uses
  | Stmt.exprStmt e => e.uses
  | Stmt.importMod _ _ => []
  | Stmt.importFrom _ _ => []
  | Stmt.shell _ => []
  | Stmt.classDef _ base ms => base.uses ++ ms.uses
  | Stmt.ifStmt c t e => c.uses ++ t.uses ++ e.uses
  | Stmt.whileStmt c b => c.uses ++ b.uses
  | Stmt.forStmt _ i b => i.uses ++ b.uses
  | Stmt.tryStmt b h => b.uses ++ h.uses
  | Stmt.ret e => e.uses
def StmtList.uses : StmtList → List String
  | StmtList.nil => []
  | StmtList.cons s ss => s.uses ++ ss.uses
def Methods.uses : Methods → List String
  | Methods.nil => []
  | Methods.cons _ ps body rest =>
      (body.uses.filter (fun u =>
        !(ps.contains u || body.defines.contains u || u == "super")))
      ++ rest.uses
end

mutual
/-- No `if` / `while` / `for` statement occurs, at top level or inside any
class method, `try` block or nested body. -/
def Stmt.noBranch : Stmt → Bool
  | Stmt.classDef _ _ ms => ms.noBranch
  | Stmt.ifStmt _ _ _ => false
  | Stmt.whileStmt _ _ => false
  | Stmt.forStmt _ _ _ => false
  | Stmt.tryStmt b h => b.noBranch && h.noBranch
  | _ => true
def StmtList.noBranch : StmtList → Bool
  | StmtList.nil => true
  | StmtList.cons s ss => s.noBranch && ss.noBranch
def Methods.noBranch : Methods → Bool
  | Methods.nil => true
  | Methods.cons _ _ body rest => body.noBranch && rest.noBranch
end

mutual
/-- No `try` statement occurs, at top level or inside any class method or
nested body. -/
def Stmt.noTry : Stmt → Bool
  | Stmt.classDef _ _ ms => ms.noTry
  | Stmt.ifStmt _ t e => t.noTry && e.noTry
  | Stmt.whileStmt _ b => b.noTry
  | Stmt.forStmt _ _ b => b.noTry
  | Stmt.tryStmt _ _ => false
  | _ => true
def StmtList.noTry : StmtList → Bool
  | StmtList.nil => true
  | StmtList.cons s ss => s.noTry && ss.noTry
def Methods.noTry : Methods → Bool
  | Methods.nil => true
  | Methods.cons _ _ body rest => body.noTry && rest.noTry
end

/-- Python builtins the notebook may use without importing or defining them. -/
def pyBuiltins : List String := ["dict", "super"]

/-- Every statement reads only names made available by earlier statements
of the script (or Python builtins): the def-use relation is linear. -/
def defUseLinear (env : List String) : List Stmt → Bool
  | [] => true
  | s :: ss =>
      s.uses.all (fun u => env.contains u || pyBuiltins.contains u)
      && defUseLinear (env ++ s.defines) ss

/-- The root of a call's callee: `colossalai.nn.data.CIFAR10Dataset(...)`
has callee root `colossalai`; `Net().cuda()` has callee root `Net`. -/
def Expr.calleeRoot : Expr → Option String
  | Expr.name x => some x
  | Expr.attr e _ => e.calleeRoot
  | Expr.call f _ _ => f.calleeRoot
  | _ => none

/-- The keyword arguments of a call expression. -/
def Expr.callKwargs : Expr → Kwargs
  | Expr.call _ _ k => k
  | _ => Kwargs.nil

/-- The positional arguments of a call expression. -/
def Expr.callPos : Expr → ExprList
  | Expr.call _ p _ => p
  | _ => ExprList.nil

/-- Look up a keyword argument by name. -/
def Kwargs.lookup (key : String) : Kwargs → Option Expr
  | Kwargs.nil => none
  | Kwargs.cons k v r => if k == key then some v else Kwargs.lookup key r

/-- The expression of an expression statement or the right-hand side of an
assignment. -/
def Stmt.rhs : Stmt → Option Expr
  | Stmt.assign _ e => some e
  | Stmt.exprStmt e => some e
  | _ => none

/-- The first binding of a name in a statement list. -/
def bindingOf (x : String) : List Stmt → Option Expr
  | [] => none
  | Stmt.assign y e :: ss => if y == x then some e else bindingOf x ss
  | _ :: ss => bindingOf x ss

/-- `optIs o p` holds when the optional expression is present and satisfies
the boolean check. -/
def optIs (o : Option Expr) (p : Expr → Bool) : Bool :=
  match o with
  | some e => p e
  | none => false

mutual
/-- An expression built out of literals alone: literals, lists of literals
and `dict(...)` displays of literals (including products such as
`16 * 5 * 5`), with no name reference and no other call. -/
def Expr.isLitConst : Expr → Bool
  | Expr.lit _ => true
  | Expr.call (Expr.name "dict") p k => p.isLitConst && k.isLitConst
  | Expr.mul a b => a.isLitConst && b.isLitConst
  | Expr.listE es => es.isLitConst
  | _ => false
def ExprList.isLitConst : ExprList → Bool
  | ExprList.nil => true
  | ExprList.cons e es => e.isLitConst && es.isLitConst
def Kwargs.isLitConst : Kwargs → Bool
  | Kwargs.nil => true
  | Kwargs.cons _ v r => v.isLitConst && r.isLitConst
end

/-- Resolve an integer-valued argument expression: either an integer
literal, or a name whose binding in the script is an integer literal. -/
def resolveInt (nb : List Stmt) : Expr → Option Int
  | Expr.lit (Lit.int n) => some n
  | Expr.name x =>
      match bindingOf x nb with
      | some (Expr.lit (Lit.int n)) => some n
      | _ => none
  | _ => none

/-! ## Value-level record of the parallel configuration (cell 3) -/

structure SizeCfg where
  size : Nat
deriving DecidableEq

structure TensorCfg where
  size : Nat
  mode : Option String
deriving DecidableEq

structure ParallelCfg where
  data : SizeCfg
  pipeline : SizeCfg
  tensor : TensorCfg
deriving DecidableEq

/-- `parallel_cfg = Config(dict(parallel=dict(data=dict(size=1),
pipeline=dict(size=1), tensor=dict(size=1, mode=None))))`. -/
def parallel_cfg : ParallelCfg := ⟨⟨1⟩, ⟨1⟩, ⟨1, none⟩⟩

structure InitDistArgs where
  config : ParallelCfg
  local_rank : Nat
  world_size : Nat
  host : String
  port : Nat
  backend : String
deriving DecidableEq

/-- The arguments of the notebook's single `colossalai.init_dist` call. -/
def init_dist_args : InitDistArgs :=
  ⟨parallel_cfg, 0, 1, "127.0.0.1", 8888, "nccl"⟩

/-! ## Value-level record of the dataset and loader construction (cell 4) -/

/-- A decimal literal, kept symbolic as digits and decimal shift
(`0.4914` is `⟨4914, 4⟩`). -/
structure Decimal where
  digits : Int
  shift : Nat
deriving DecidableEq

inductive Transform where
  | toTensor
  | normalize (mean : List Decimal) (std : List Decimal)
deriving DecidableEq

/-- `transform_cfg = [dict(type='ToTensor'), dict(type='Normalize',
mean=[0.4914, 0.4822, 0.4465], std=[0.2023, 0.1994, 0.2010])]`. -/
def transform_cfg : List Transform :=
  [Transform.toTensor,
   Transform.normalize
     [⟨4914, 4⟩, ⟨4822, 4⟩, ⟨4465, 4⟩]
     [⟨2023, 4⟩, ⟨1994, 4⟩, ⟨2010, 4⟩]]

/-- `batch_size = 128`. -/
def batch_size : Nat := 128

structure CIFAR10DatasetArgs where
  transform : List Transform
  root : String
  train : Bool
deriving DecidableEq

/-- `trainset = colossalai.nn.data.CIFAR10Dataset(transform_cfg,
root='./data', train=True)`. -/
def trainset : CIFAR10DatasetArgs := ⟨transform_cfg, "./data", true⟩

/-- `testset = colossalai.nn.data.CIFAR10Dataset(transform_cfg,
root='./data', train=False)`. -/
def testset : CIFAR10DatasetArgs := ⟨transform_cfg, "./data", false⟩

structure DataLoaderArgs where
  datasetName : String
  batch_size : Nat
  shuffle : Bool
  num_workers : Nat
deriving DecidableEq

/-- `trainloader = torch.utils.data.DataLoader(trainset,
batch_size=batch_size, shuffle=True, num_workers=2)`. -/
def trainloader : DataLoaderArgs := ⟨"trainset", batch_size, true, 2⟩

/-- `testloader = torch.utils.data.DataLoader(testset,
batch_size=batch_size, shuffle=False, num_workers=2)`. -/
def testloader : DataLoaderArgs := ⟨"testset", batch_size, false, 2⟩

/-- Modelled from the spec: the enumeration order of
`torch.utils.data.DataLoader` (library code absent from src/) over a
dataset of `n` samples in one pass.  With `shuffle=False` the loader
enumerates the dataset in its fixed index order; with `shuffle=True` it
enumerates a sampler-dependent permutation `perm` of the indices. -/
def loaderOrder (dl : DataLoaderArgs) (perm : List Nat) (n : Nat) : List Nat :=
  if dl.shuffle then perm else List.range n

/-! ## Value-level shape semantics of `Net` (cell 5)

The layers below carry the constructor arguments of `Net.__init__`;
`netForwardShape` follows the data flow of `Net.forward`.  `nn.Conv2d`
with kernel `k` (stride 1, no padding) maps spatial size `s` to
`s - k + 1` and is defined only when the channel count matches and
`k ≤ s`; `nn.MaxPool2d` with kernel `k` and stride `st` maps `s` to
`(s - k) / st + 1`; `F.relu` preserves shape; `torch.flatten(x, 1)`
multiplies out all dimensions after the batch dimension; `nn.Linear`
requires its declared input feature count. -/

structure Conv2dLayer where
  inChannels : Nat
  outChannels : Nat
  kernel : Nat

structure MaxPool2dLayer where
  kernel : Nat
  stride : Nat

structure LinearLayer where
  inFeatures : Nat
  outFeatures : Nat

/-- `self.conv1 = nn.Conv2d(3, 6, 5)`. -/
def netConv1 : Conv2dLayer := ⟨3, 6, 5⟩

/-- `self.pool = nn.MaxPool2d(2, 2)`. -/
def netPool : MaxPool2dLayer := ⟨2, 2⟩

/-- `self.conv2 = nn.Conv2d(6, 16, 5)`. -/
def netConv2 : Conv2dLayer := ⟨6, 16, 5⟩

/-- `self.fc1 = nn.Linear(16 * 5 * 5, 120)`. -/
def netFc1 : LinearLayer := ⟨16 * 5 * 5, 120⟩

/-- `self.fc2 = nn.Linear(120, 84)`. -/
def netFc2 : LinearLayer := ⟨120, 84⟩

/-- `self.fc3 = nn.Linear(84, 10)`. -/
def netFc3 : LinearLayer := ⟨84, 10⟩

/-- A 4-dimensional tensor shape `[n, c, h, w]`. -/
structure Shape4 where
  n : Nat
  c : Nat
  h : Nat
  w : Nat
deriving DecidableEq

def Conv2dLayer.applyShape (l : Conv2dLayer) (s : Shape4) : Option Shape4 :=
  if s.c == l.inChannels && l.kernel ≤ s.h && l.kernel ≤ s.w then
    some ⟨s.n, l.outChannels, s.h - l.kernel + 1, s.w - l.kernel + 1⟩
  else none

def MaxPool2dLayer.applyShape (l : MaxPool2dLayer) (s : Shape4) : Option Shape4 :=
  if 0 < l.stride && l.kernel ≤ s.h && l.kernel ≤ s.w then
    some ⟨s.n, s.c, (s.h - l.kernel) / l.stride + 1, (s.w - l.kernel) / l.stride + 1⟩
  else none

def LinearLayer.applyFeatures (l : LinearLayer) (s : Nat × Nat) : Option (Nat × Nat) :=
  if s.2 == l.inFeatures then some (s.1, l.outFeatures) else none

/-- The two convolution-ReLU-pool rounds of `Net.forward`
(`x = self.pool(F.relu(self.conv1(x)))`; `x = self.pool(F.relu(self.conv2(x)))`);
`F.relu` preserves the shape. -/
def netConvStages (s : Shape4) : Option Shape4 := do
  let s1 ← netConv1.applyShape s
  let s2 ← netPool.applyShape s1
  let s3 ← netConv2.applyShape s2
  netPool.applyShape s3

/-- The shape semantics of the whole of `Net.forward`: the two
convolution-pool rounds, `x = torch.flatten(x, 1)`, then
`fc1`, `fc2`, `fc3` (with shape-preserving `F.relu` in between). -/
def netForwardShape (s : Shape4) : Option (Nat × Nat) := do
  let s4 ← netConvStages s
  let flat := (s4.n, s4.c * s4.h * s4.w)
  let s5 ← netFc1.applyFeatures flat
  let s6 ← netFc2.applyFeatures s5
  netFc3.applyFeatures s6

/-! ## Execution model of the script (for error propagation)

A statement's outcome is given by an environment oracle `ex` (the external
framework and library may fail in arbitrary ways); the only statement form
with error-handling behaviour of its own is `try`, which recovers from a
failing body by running its handler. -/

mutual
def runStmt (ex : Stmt → Except String Unit) : Stmt → Except String Unit
  | Stmt.tryStmt body handler =>
      match runStmts ex body with
      | Except.ok _ => Except.ok ()
      | Except.error _ => runStmts ex handler
  | s => ex s
def runStmts (ex : Stmt → Except String Unit) : StmtList → Except String Unit
  | StmtList.nil => Except.ok ()
  | StmtList.cons s ss =>
      match runStmt ex s with
      | Except.ok _ => runStmts ex ss
      | Except.error err => Except.error err
end

def runAll (ex : Stmt → Except String Unit) : List Stmt → Except String Unit
  | [] => Except.ok ()
  | s :: ss =>
      match runStmt ex s with
      | Except.ok _ => runAll ex ss
      | Except.error err => Except.error err

/-! ## Recorded outputs and effect surface (for the external-interface claim) -/

inductive OutputKind where
  | streamStdout
  | streamStderr
deriving DecidableEq

/-- The recorded outputs of the notebook's seven code cells, in order, as
stored in the .ipynb file: every recorded output object has
`output_type = "stream"` with `name` either `"stdout"` or `"stderr"`
(one entry below per distinct stream name appearing in the cell's
outputs list). -/
def cellOutputs : List (List OutputKind) :=
  [[OutputKind.streamStdout],
   [OutputKind.streamStdout],
   [OutputKind.streamStderr, OutputKind.streamStdout],
   [OutputKind.streamStdout],
   [],
   [OutputKind.streamStderr],
   [OutputKind.streamStderr]]

inductive Effect where
  | pkgInstall
  | consoleStream
  | fileArtifact
  | netProtocol
  | cliSurface
deriving DecidableEq

/-- Modelled from the spec: the externally visible effect surface of each
notebook statement (the called framework code is absent from src/).  The
shell cell installs packages via the package manager and echoes to the
console; imports and framework calls print log lines, warnings and
progress bars to the console streams; a class definition has no external
effect.  The notebook defines no file format, wire protocol or CLI, so no
statement is assigned `fileArtifact`, `netProtocol` or `cliSurface`. -/
def stmtEffects : Stmt → List Effect
  | Stmt.shell _ => [Effect.pkgInstall, Effect.consoleStream]
  | Stmt.classDef _ _ _ => []
  | _ => [Effect.consoleStream]

/-- The module sources of an import statement. -/
def Stmt.importSources : Stmt → List String
  | Stmt.importMod m _ => [m]
  | Stmt.importFrom m _ => [m]
  | _ => []

/-- The modules of the two external libraries the notebook imports from. -/
def frameworkModules : List String :=
  ["colossalai", "colossalai.engine", "colossalai.trainer", "colossalai.context",
   "torch", "torch.nn", "torch.nn.functional", "torch.optim"]

/-! ## Small statement classifiers used by the theorems -/

/-- The callee root of the statement's right-hand-side call. -/
def Stmt.rhsRoot (s : Stmt) : Option String :=
  match s.rhs with
  | some e => e.calleeRoot
  | none => none

/-- A keyword argument of the statement's right-hand-side call. -/
def stmtKw (s : Stmt) (key : String) : Option Expr :=
  match s.rhs with
  | some e => e.callKwargs.lookup key
  | none => none

/-- The statement is the call `trainer.fit(...)`. -/
def Stmt.callsTrainerFit : Stmt → Bool
  | Stmt.exprStmt (Expr.call (Expr.attr (Expr.name "trainer") "fit") _ _) => true
  | _ => false

/-- The statement is the call `colossalai.init_dist(...)`. -/
def Stmt.callsInitDist : Stmt → Bool
  | Stmt.exprStmt (Expr.call (Expr.attr (Expr.name "colossalai") "init_dist") _ _) => true
  | _ => false

/-- The statement makes the given name available. -/
def Stmt.definesName (x : String) (s : Stmt) : Bool :=
  s.defines.contains x

/-- Index of the first notebook statement satisfying the classifier. -/
def idxWhere (p : Stmt → Bool) : Nat :=
  List.findIdx p notebook

/-- An integer keyword argument of a statement's call, resolved through the
script's bindings (a literal, or a name bound to a literal). -/
def kwInt (s : Stmt) (key : String) : Option Int :=
  match stmtKw s key with
  | some e => resolveInt notebook e
  | none => none

/-- Every layer assigned onto `self` in `Net.__init__` is constructed by a
call rooted at the imported framework module alias `nn`. -/
def netInitLayersFromNn : Bool :=
  netInitBody.all (fun s =>
    match s with
    | Stmt.attrAssign _ _ e => e.calleeRoot == some "nn"
    | _ => true)

/-- Every statement of `Net.forward` is an application of framework-owned
functionality: a call rooted at a layer held on `self`, at `F`, or at
`torch`, or the final `return x`; and the body reads no name outside
`self`, `F`, `torch` and the input `x`. -/
def netForwardFrameworkOnly : Bool :=
  netForwardBody.all (fun s =>
    match s with
    | Stmt.assign _ e =>
        e.calleeRoot == some "self" || e.calleeRoot == some "F"
          || e.calleeRoot == some "torch"
    | Stmt.ret (Expr.name _) => true
    | _ => false)
  && (netForwardBody.map Stmt.uses).flatten.all
      (fun u => ["self", "F", "torch", "x"].contains u)

/-! ## Shared lemmas -/

/-- On a statement containing no `try`, the executor acts as the oracle
does: the statement installs no handler of its own. -/
theorem runStmt_eq_ex (ex : Stmt → Except String Unit) (s : Stmt)
    (h : s.noTry = true) : runStmt ex s = ex s := by
  cases s <;> first | rfl | (exact absurd h (by simp [Stmt.noTry]))

/-- Running a handler-free script in which every statement before `s`
succeeds and `s` fails yields exactly `s`'s error. -/
theorem runAll_append_error (ex : Stmt → Except String Unit) (e : String)
    (pre : List Stmt) (s : Stmt) (post : List Stmt)
    (hnt : ∀ t ∈ pre, t.noTry = true) (hok : ∀ t ∈ pre, ex t = Except.ok ())
    (hs : s.noTry = true) (herr : ex s = Except.error e) :
    runAll ex (pre ++ s :: post) = Except.error e := by
  induction pre with
  | nil =>
      simp only [List.nil_append, runAll]
      rw [runStmt_eq_ex ex s hs, herr]
  | cons t rest ih =>
      simp only [List.cons_append, runAll]
      rw [runStmt_eq_ex ex t (hnt t (by simp)), hok t (by simp)]
      exact ih (fun u hu => hnt u (by simp [hu])) (fun u hu => hok u (by simp [hu]))

/-! ## The claims -/

/-- C1: the notebook configures a single-process run: `init_dist` is called
with `world_size=1` on `parallel_cfg`, and every parallelism group size in
the configuration (data, pipeline, tensor) equals 1, with tensor mode
`None`.  The final conjunct anchors the value-level record to the embedded
call: the `world_size` keyword of the `init_dist` statement is the literal
`1`. -/
theorem cifar_C1_single_process_config :
    init_dist_args.world_size = 1 ∧
    init_dist_args.config = parallel_cfg ∧
    parallel_cfg.data.size = 1 ∧
    parallel_cfg.pipeline.size = 1 ∧
    parallel_cfg.tensor.size = 1 ∧
    parallel_cfg.tensor.mode = none ∧
    optIs (stmtKw stmtInitDist "world_size") (Expr.beq (intE 1)) = true := by
  decide

/-- C2: `trainer.fit` is invoked exactly once in the notebook, with
`max_epochs` resolving to the constant `10` (via `num_epochs = 10`) and
`test_interval` resolving to the constant `1` (via `test_interval = 1`);
both names are bound to integer literals, so the trained epoch count is
fixed before the loop starts. -/
theorem cifar_C2_fixed_epoch_count :
    (notebook.filter Stmt.callsTrainerFit).length = 1 ∧
    Stmt.callsTrainerFit stmtFit = true ∧
    kwInt stmtFit "max_epochs" = some 10 ∧
    kwInt stmtFit "test_interval" = some 1 ∧
    optIs (bindingOf "num_epochs" notebook) (Expr.beq (intE 10)) = true ∧
    optIs (bindingOf "test_interval" notebook) (Expr.beq (intE 1)) = true := by
  decide

/-- C3: for every batch size `n`, `Net.forward` on an input of shape
`[n, 3, 32, 32]` is well-defined: the two convolution-pool rounds yield
shape `[n, 16, 5, 5]`, the flattened feature length equals `fc1`'s
declared input dimension `16 * 5 * 5 = 400`, and the output has shape
`[n, 10]`. -/
theorem cifar_C3_forward_shape (n : Nat) :
    netConvStages ⟨n, 3, 32, 32⟩ = some ⟨n, 16, 5, 5⟩ ∧
    (netConvStages ⟨n, 3, 32, 32⟩).map (fun s => s.c * s.h * s.w)
      = some netFc1.inFeatures ∧
    netFc1.inFeatures = 400 ∧
    netForwardShape ⟨n, 3, 32, 32⟩ = some (n, 10) := by
  refine ⟨?_, ?_, rfl, ?_⟩ <;>
    simp [netForwardShape, netConvStages, Conv2dLayer.applyShape,
      MaxPool2dLayer.applyShape, LinearLayer.applyFeatures,
      netConv1, netConv2, netPool, netFc1, netFc2, netFc3]

/-- C4: each demonstrated step is a direct call into pre-built framework
functionality — environment initialization calls `colossalai.init_dist`,
the datasets and loaders are built by `colossalai`/`torch` constructors,
loss, optimizer, schedule, engine and trainer by `nn`/`optim`/framework
classes, training by `trainer.fit`; `Net`'s layers all come from `nn` and
its `forward` applies only framework functionality; and the notebook
contains no `if`/`while`/`for` and no `try` anywhere. -/
theorem cifar_C4_direct_framework_calls :
    Stmt.callsInitDist stmtInitDist = true ∧
    stmtTrainset.rhsRoot = some "colossalai" ∧
    stmtTestset.rhsRoot = some "colossalai" ∧
    stmtTrainloader.rhsRoot = some "torch" ∧
    stmtTestloader.rhsRoot = some "torch" ∧
    stmtCriterion.rhsRoot = some "nn" ∧
    stmtOptimizer.rhsRoot = some "optim" ∧
    stmtSchedule.rhsRoot = some "NoPipelineSchedule" ∧
    stmtEngine.rhsRoot = some "Engine" ∧
    stmtTrainer.rhsRoot = some "Trainer" ∧
    stmtFit.rhsRoot = some "trainer" ∧
    netInitLayersFromNn = true ∧
    netForwardFrameworkOnly = true ∧
    notebook.all Stmt.noBranch = true ∧
    notebook.all Stmt.noTry = true := by
  decide

/-- C5: both splits of the dataset are loaded — `trainset` with
`train=True`, `testset` with `train=False` — and the two constructions
receive the identical transform configuration, the one literal list
`transform_cfg` (`ToTensor`, then `Normalize` with the same mean and std
lists); the last four conjuncts anchor this to the embedded calls, which
pass the same name `transform_cfg` positionally. -/
theorem cifar_C5_same_transform_both_splits :
    trainset.train = true ∧
    testset.train = false ∧
    trainset.transform = testset.transform ∧
    trainset.transform = transform_cfg ∧
    transform_cfg =
      [Transform.toTensor,
       Transform.normalize
         [⟨4914, 4⟩, ⟨4822, 4⟩, ⟨4465, 4⟩]
         [⟨2023, 4⟩, ⟨1994, 4⟩, ⟨2010, 4⟩]] ∧
    trainset.root = testset.root ∧
    optIs stmtTrainset.rhs
      (fun e => ExprList.beq e.callPos (el [Expr.name "transform_cfg"])) = true ∧
    optIs stmtTestset.rhs
      (fun e => ExprList.beq e.callPos (el [Expr.name "transform_cfg"])) = true ∧
    optIs (stmtKw stmtTrainset "train") (Expr.beq (boolE true)) = true ∧
    optIs (stmtKw stmtTestset "train") (Expr.beq (boolE false)) = true := by
  decide

/-- C6: the notebook installs no exception handler (no `try` occurs in any
statement), so when the statements before some point succeed and that
statement's library call raises an error, the script's outcome is exactly
that error, untransformed. -/
theorem cifar_C6_error_propagation (ex : Stmt → Except String Unit) (e : String)
    (pre : List Stmt) (s : Stmt) (post : List Stmt)
    (hsplit : notebook = pre ++ s :: post)
    (hok : ∀ t ∈ pre, ex t = Except.ok ())
    (herr : ex s = Except.error e) :
    notebook.all Stmt.noTry = true ∧ runAll ex notebook = Except.error e := by
  have hmem : ∀ t ∈ notebook, t.noTry = true := by decide
  refine ⟨by decide, ?_⟩
  rw [hsplit]
  refine runAll_append_error ex e pre s post ?_ hok ?_ herr
  · intro t ht
    exact hmem t (by rw [hsplit]; exact List.mem_append_left _ ht)
  · exact hmem s (by rw [hsplit]; exact List.mem_append_right _ (List.mem_cons_self s post))

/-- Witness for C6: an oracle failing at the very first cell (e.g. a
package-installation failure) propagates unchanged to the script's
outcome. -/
theorem cifar_C6_error_propagation_witness :
    runAll (fun _ => Except.error "pip failed") notebook
      = Except.error "pip failed" :=
  (cifar_C6_error_propagation (fun _ => Except.error "pip failed") "pip failed"
    [] stmtPip notebook.tail rfl
    (fun t ht => absurd ht (List.not_mem_nil t)) rfl).2

/-- C7: the notebook is a linear script: distributed initialization comes
before both dataset constructions, those come before the model, engine and
trainer constructions, the `trainer.fit` call is the final statement, every
statement reads only names produced by earlier statements (or Python
builtins), and every import is from the two external libraries. -/
theorem cifar_C7_linear_sequence :
    idxWhere Stmt.callsInitDist < idxWhere (Stmt.definesName "trainset") ∧
    idxWhere Stmt.callsInitDist < idxWhere (Stmt.definesName "testset") ∧
    idxWhere (Stmt.definesName "trainset") < idxWhere (Stmt.definesName "Net") ∧
    idxWhere (Stmt.definesName "testset") < idxWhere (Stmt.definesName "Net") ∧
    idxWhere (Stmt.definesName "Net") < idxWhere (Stmt.definesName "model") ∧
    idxWhere (Stmt.definesName "trainset") < idxWhere (Stmt.definesName "engine") ∧
    idxWhere (Stmt.definesName "testset") < idxWhere (Stmt.definesName "engine") ∧
    idxWhere (Stmt.definesName "model") < idxWhere (Stmt.definesName "engine") ∧
    idxWhere (Stmt.definesName "engine") < idxWhere (Stmt.definesName "trainer") ∧
    idxWhere Stmt.callsTrainerFit = notebook.length - 1 ∧
    notebook.length = 27 ∧
    defUseLinear [] notebook = true ∧
    notebook.all (fun s => s.importSources.all
      (fun m => frameworkModules.contains m)) = true := by
  decide

/-- C8: every configuration value the notebook passes is written as a
literal (or as a name bound to a literal): the `Config` argument of
`parallel_cfg` is literal, `transform_cfg` is a literal list, host, port,
backend, world size and local rank of `init_dist` are literals, batch size
resolves to `128`, learning rate is `0.001` and momentum `0.9`, the hook
configuration and the shuffle and worker-count flags are literal, and the
epoch count and test interval resolve to `10` and `1`. -/
theorem cifar_C8_literal_configuration :
    optIs (bindingOf "parallel_cfg" notebook)
      (fun e => e.calleeRoot == some "Config" && e.callPos.isLitConst) = true ∧
    optIs (bindingOf "transform_cfg" notebook) Expr.isLitConst = true ∧
    optIs (bindingOf "batch_size" notebook) (Expr.beq (intE 128)) = true ∧
    optIs (bindingOf "num_epochs" notebook) (Expr.beq (intE 10)) = true ∧
    optIs (bindingOf "test_interval" notebook) (Expr.beq (intE 1)) = true ∧
    optIs (stmtKw stmtInitDist "host") (Expr.beq (strE "127.0.0.1")) = true ∧
    optIs (stmtKw stmtInitDist "port") (Expr.beq (intE 8888)) = true ∧
    optIs (stmtKw stmtInitDist "backend") (Expr.beq (strE "nccl")) = true ∧
    optIs (stmtKw stmtInitDist "world_size") Expr.isLitConst = true ∧
    optIs (stmtKw stmtInitDist "local_rank") Expr.isLitConst = true ∧
    optIs (stmtKw stmtOptimizer "lr") (Expr.beq (decE 1 3)) = true ∧
    optIs (stmtKw stmtOptimizer "momentum") (Expr.beq (decE 9 1)) = true ∧
    optIs (stmtKw stmtTrainer "hooks_cfg") Expr.isLitConst = true ∧
    optIs (stmtKw stmtTrainer "verbose") Expr.isLitConst = true ∧
    optIs (stmtKw stmtTrainloader "shuffle") Expr.isLitConst = true ∧
    optIs (stmtKw stmtTestloader "shuffle") Expr.isLitConst = true ∧
    optIs (stmtKw stmtTrainloader "num_workers") Expr.isLitConst = true ∧
    optIs (stmtKw stmtTestloader "num_workers") Expr.isLitConst = true ∧
    kwInt stmtTrainloader "batch_size" = some 128 ∧
    kwInt stmtTestloader "batch_size" = some 128 ∧
    kwInt stmtFit "max_epochs" = some 10 ∧
    kwInt stmtFit "test_interval" = some 1 ∧
    optIs (stmtKw stmtFit "display_progress") Expr.isLitConst = true := by
  decide

/-- C9: the training loader is constructed with shuffling enabled and the
test loader with shuffling disabled (anchored to the embedded calls), so
under the loader-order model every two enumeration passes of the test
loader agree — the order is the fixed index order — while for the shuffled
training loader two passes over as few as two samples can already disagree. -/
theorem cifar_C9_test_order_deterministic :
    testloader.shuffle = false ∧
    trainloader.shuffle = true ∧
    optIs (stmtKw stmtTestloader "shuffle") (Expr.beq (boolE false)) = true ∧
    optIs (stmtKw stmtTrainloader "shuffle") (Expr.beq (boolE true)) = true ∧
    (∀ (n : Nat) (p1 p2 : List Nat),
      loaderOrder testloader p1 n = loaderOrder testloader p2 n) ∧
    (∀ (n : Nat) (p : List Nat), loaderOrder testloader p n = List.range n) ∧
    (∃ q1 q2 : List Nat, List.Perm q1 (List.range 2) ∧
      List.Perm q2 (List.range 2) ∧
      loaderOrder trainloader q1 2 ≠ loaderOrder trainloader q2 2) := by
  refine ⟨rfl, rfl, by decide, by decide, fun n p1 p2 => rfl, fun n p => rfl,
    [0, 1], [1, 0], by decide, by decide, by decide⟩

/-- C10 (as stated) is false: not every recorded output of the notebook
goes to standard output — the `init_dist` cell (code cell index 2) records
a `stderr` stream alongside its `stdout` stream. -/
theorem cifar_C10_stderr_counterexample :
    cellOutputs.get? 2 = some [OutputKind.streamStderr, OutputKind.streamStdout] ∧
    ¬ (∀ outs ∈ cellOutputs, ∀ o ∈ outs, o = OutputKind.streamStdout) := by
  decide

/-- C10 (amended): the notebook's only externally visible effects are
sequential cell execution, package installation via the package manager,
and printing framework log lines and progress bars to the standard output
and standard error streams; every recorded cell output is one of those two
streams, every statement's modelled effect is package installation or
console printing, the notebook imports only from the two external
libraries and reads only names it produced itself, so it defines no file
format, wire protocol, or CLI of its own. -/
theorem cifar_C10_output_surface :
    (∀ outs ∈ cellOutputs, ∀ o ∈ outs,
      o = OutputKind.streamStdout ∨ o = OutputKind.streamStderr) ∧
    (∀ s ∈ notebook, ∀ ef ∈ stmtEffects s,
      ef = Effect.pkgInstall ∨ ef = Effect.consoleStream) ∧
    (stmtEffects stmtPip).contains Effect.pkgInstall = true ∧
    notebook.all (fun s => s.importSources.all
      (fun m => frameworkModules.contains m)) = true ∧
    defUseLinear [] notebook = true := by
  decide
